import Mathlib

/-
Verification of the notebook `12-parameters-and-widgets.ipynb`.

The notebook declares a `StyleOptions` class (a holoviews `Stream`, which is a
`param.Parameterized`) with three parameters

    alpha      = param.Magnitude(default=0.8)
    color      = param.ObjectSelector(default='red',
                                      objects=['red', 'green', 'blue'])
    line_width = param.Number(default=1, bounds=(0, 10))

and wires a `DynamicMap(lambda **kwargs: curve.opts(style=kwargs),
streams=[opts])` to it, with `Widgets(opts, callback=opts.event, ...)` as the
notification hook.  Numeric parameter values are embedded as rationals; the
external libraries' validation, `event`, and `DynamicMap` semantics are
modelled from the specification, as only their call sites appear in the
notebook.
-/

namespace ParamsWidgets

/-- The style keyword arguments received by the DynamicMap callback: the
current values of the three declared parameters of `StyleOptions`. -/
structure StyleArgs where
  alpha : ℚ
  color : String
  line_width : ℚ
deriving DecidableEq

/-- The enumerated choices declared for `color`:
`objects=['red', 'green', 'blue']`. -/
def colorObjects : List String := ["red", "green", "blue"]

/-- The `StyleOptions` parameterized instance.  Besides the three declared
parameters it carries the `name` parameter every `param.Parameterized`
instance has (an auto-generated instance label). -/
structure StyleOptions where
  name : String
  alpha : ℚ
  color : String
  line_width : ℚ
deriving DecidableEq

/-- Construct a fresh `StyleOptions()` instance with the declared defaults:
`alpha=0.8`, `color='red'`, `line_width=1`. -/
def mkStyleOptions (nm : String) : StyleOptions :=
  { name := nm, alpha := 8/10, color := "red", line_width := 1 }

/-- Modelled from the spec: validity of a value for `alpha`, declared as
`param.Magnitude` — "a fractional value with bounds [0,1]" (the parameter
library is not part of this repository). -/
def alphaValid (v : ℚ) : Prop := 0 ≤ v ∧ v ≤ 1

instance (v : ℚ) : Decidable (alphaValid v) := by
  unfold alphaValid; infer_instance

/-- Modelled from the spec: validity of a value for `color`, declared as
`param.ObjectSelector` — "a string drawn from a fixed enumerated set"; "the
selector rejects any string not in the set red, green, blue". -/
def colorValid (s : String) : Prop := s ∈ colorObjects

instance (s : String) : Decidable (colorValid s) := by
  unfold colorValid; infer_instance

/-- Modelled from the spec: validity of a value for `line_width`, declared as
`param.Number(bounds=(0, 10))` — "a bounded numeric value". -/
def lineWidthValid (v : ℚ) : Prop := 0 ≤ v ∧ v ≤ 10

instance (v : ℚ) : Decidable (lineWidthValid v) := by
  unfold lineWidthValid; infer_instance

/-- Modelled from the spec: attribute assignment to `alpha`.  The parameter
library validates the value before storing it; an out-of-range value raises
the library's exception (modelled as `some` error message) and the instance
keeps its previous values. -/
def setAlpha (o : StyleOptions) (v : ℚ) : StyleOptions × Option String :=
  if alphaValid v then ({ o with alpha := v }, none)
  else (o, some "Parameter alpha must be at most 1, and at least 0")

/-- Modelled from the spec: attribute assignment to `color`.  The selector
rejects any string not among the declared objects, raising the library's
exception and leaving the instance unchanged. -/
def setColor (o : StyleOptions) (s : String) : StyleOptions × Option String :=
  if colorValid s then ({ o with color := s }, none)
  else (o, some "Object not in the list of possible objects")

/-- Modelled from the spec: attribute assignment to `line_width`.  The
bounded number rejects values outside its declared bounds, raising the
library's exception and leaving the instance unchanged. -/
def setLineWidth (o : StyleOptions) (v : ℚ) : StyleOptions × Option String :=
  if lineWidthValid v then ({ o with line_width := v }, none)
  else (o, some "Parameter line_width must be at most 10, and at least 0")

/-- Modelled from the spec: the stream's `contents` — the mapping of the
declared parameter names to their current values, excluding the `name`
parameter.  This is what the DynamicMap passes as `**kwargs`. -/
def contents (o : StyleOptions) : StyleArgs :=
  { alpha := o.alpha, color := o.color, line_width := o.line_width }

/-- A `Curve` plot: fixed underlying data and style options.  The notebook's
curve holds a fixed sine-wave array; its exact floating-point values matter
to no claim, so data is an abstract list of rationals.  A freshly constructed
curve has no style set. -/
structure Curve where
  data : List ℚ
  style : Option StyleArgs
deriving DecidableEq

/-- `curve.opts(style=kwargs)`: apply the given style options to the plot,
leaving its data untouched. -/
def curveOptsStyle (c : Curve) (kwargs : StyleArgs) : Curve :=
  { c with style := some kwargs }

/-- The visualization binding: the notebook's
`lambda **kwargs: curve.opts(style=kwargs)` passed to `DynamicMap`, with the
closed-over base curve made explicit. -/
def dmapCallback (base : Curve) (kwargs : StyleArgs) : Curve :=
  curveOptsStyle base kwargs

/-- The state of the wired demonstration: the stream instance (`opts`), the
base curve the lambda closes over, and the currently displayed plot produced
by the DynamicMap. -/
structure DMapSystem where
  stream : StyleOptions
  base : Curve
  displayed : Curve
deriving DecidableEq

/-- Modelled from the spec: the notification hook.  `opts.event`, wired as
the widget callback, triggers the streams on the DynamicMap, which re-invokes
the visualization binding with the stream's current contents and displays the
result (the `event`/`DynamicMap` machinery lives in the external holoviews
library). -/
def fireEvent (st : DMapSystem) : DMapSystem :=
  { st with displayed := dmapCallback st.base (contents st.stream) }

/-- A widget edit to `alpha` at the system level: the widget assigns the new
value to the stream instance (validated by the parameter library). -/
def sysSetAlpha (st : DMapSystem) (v : ℚ) : DMapSystem × Option String :=
  ({ st with stream := (setAlpha st.stream v).1 }, (setAlpha st.stream v).2)

/-- A widget edit to `color` at the system level. -/
def sysSetColor (st : DMapSystem) (s : String) : DMapSystem × Option String :=
  ({ st with stream := (setColor st.stream s).1 }, (setColor st.stream s).2)

/-- A widget edit to `line_width` at the system level. -/
def sysSetLineWidth (st : DMapSystem) (v : ℚ) : DMapSystem × Option String :=
  ({ st with stream := (setLineWidth st.stream v).1 },
   (setLineWidth st.stream v).2)

/-- One call the notebook makes to a widget-panel-rendering API
(`paramnb.Widgets` or `parambokeh.Widgets`): the back-end used and the names
of the inputs supplied. -/
structure WidgetsCall where
  backend : String
  inputs : List String
deriving DecidableEq

/-- The four `Widgets` calls the notebook makes, in order, with the inputs
each supplies: `Widgets(opts)`, `Widgets(opts)`,
`Widgets(opts, callback=opts.event, continuous_update=True)`, and
`Widgets(viewer, callback=viewer.event, view_position='right',
continuous_update=True, plots=[plot])`. -/
def notebookWidgetsCalls : List WidgetsCall :=
  [ { backend := "parambokeh", inputs := ["instance"] },
    { backend := "paramnb", inputs := ["instance"] },
    { backend := "paramnb",
      inputs := ["instance", "callback", "continuous_update"] },
    { backend := "parambokeh",
      inputs := ["instance", "callback", "view_position",
                 "continuous_update", "plots"] } ]

/-- The inputs the spec's interface section lists for the
widget-panel-rendering API: a parameterized instance, an optional update
callback, an optional layout-position string, and an optional list of
pre-rendered plot objects. -/
def specListedInputs : List String :=
  ["instance", "callback", "view_position", "plots"]

end ParamsWidgets

namespace ParamsWidgets

/-- Claim C1: invoking the notification hook after a value change (to any of
the three attributes) updates the displayed visualization's style arguments
to exactly the container's current attribute values. -/
theorem event_after_change_updates_style (st : DMapSystem) (v : ℚ)
    (s : String) (w : ℚ) :
    (fireEvent (sysSetAlpha st v).1).displayed.style
      = some (contents (sysSetAlpha st v).1.stream) ∧
    (fireEvent (sysSetColor st s).1).displayed.style
      = some (contents (sysSetColor st s).1.stream) ∧
    (fireEvent (sysSetLineWidth st w).1).displayed.style
      = some (contents (sysSetLineWidth st w).1.stream) :=
  ⟨rfl, rfl, rfl⟩

/-- Claim C2: assigning `v` to `alpha` succeeds (no library error) if and
only if `0 ≤ v ≤ 1`, and a successful assignment stores `v`. -/
theorem setAlpha_succeeds_iff (o : StyleOptions) (v : ℚ) :
    (setAlpha o v).2 = none ↔ (0 ≤ v ∧ v ≤ 1) := by
  show (setAlpha o v).2 = none ↔ alphaValid v
  unfold setAlpha
  by_cases h : alphaValid v <;> simp [h]

/-- Claim C3: assigning `s` to `color` succeeds (no library error) if and
only if `s` is one of the declared objects red, green, blue. -/
theorem setColor_succeeds_iff (o : StyleOptions) (s : String) :
    (setColor o s).2 = none ↔ s ∈ colorObjects := by
  show (setColor o s).2 = none ↔ colorValid s
  unfold setColor
  by_cases h : colorValid s <;> simp [h]

/-- Claim C4: assigning `v` to `line_width` succeeds (no library error) if
and only if `v` lies within the declared bounds `0 ≤ v ≤ 10`. -/
theorem setLineWidth_succeeds_iff (o : StyleOptions) (v : ℚ) :
    (setLineWidth o v).2 = none ↔ (0 ≤ v ∧ v ≤ 10) := by
  show (setLineWidth o v).2 = none ↔ lineWidthValid v
  unfold setLineWidth
  by_cases h : lineWidthValid v <;> simp [h]

/-- Claim C7: every invalid assignment (out-of-range `alpha` or
`line_width`, unrecognized `color`) surfaces the library's error and leaves
every attribute of the container unchanged; the notebook adds no handling of
its own, so the error is exactly what the setter returns. -/
theorem invalid_assignment_errors_and_preserves (o : StyleOptions) (v : ℚ)
    (s : String) (w : ℚ) :
    (¬ alphaValid v →
      (setAlpha o v).2.isSome = true ∧ (setAlpha o v).1 = o) ∧
    (¬ colorValid s →
      (setColor o s).2.isSome = true ∧ (setColor o s).1 = o) ∧
    (¬ lineWidthValid w →
      (setLineWidth o w).2.isSome = true ∧ (setLineWidth o w).1 = o) := by
  refine ⟨fun h => ?_, fun h => ?_, fun h => ?_⟩
  · unfold setAlpha; simp [h]
  · unfold setColor; simp [h]
  · unfold setLineWidth; simp [h]

/-- Witness for C7: concrete invalid inputs (alpha 2, color purple,
line_width 11) each error out and leave the default instance unchanged. -/
theorem invalid_assignment_errors_and_preserves_witness :
    ((setAlpha (mkStyleOptions "StyleOptions00001") 2).2.isSome = true ∧
      (setAlpha (mkStyleOptions "StyleOptions00001") 2).1
        = mkStyleOptions "StyleOptions00001") ∧
    ((setColor (mkStyleOptions "StyleOptions00001") "purple").2.isSome = true
      ∧ (setColor (mkStyleOptions "StyleOptions00001") "purple").1
        = mkStyleOptions "StyleOptions00001") ∧
    ((setLineWidth (mkStyleOptions "StyleOptions00001") 11).2.isSome = true ∧
      (setLineWidth (mkStyleOptions "StyleOptions00001") 11).1
        = mkStyleOptions "StyleOptions00001") :=
  ⟨(invalid_assignment_errors_and_preserves
      (mkStyleOptions "StyleOptions00001") 2 "purple" 11).1
      (by norm_num [alphaValid]),
   (invalid_assignment_errors_and_preserves
      (mkStyleOptions "StyleOptions00001") 2 "purple" 11).2.1
      (by simp [colorValid, colorObjects]),
   (invalid_assignment_errors_and_preserves
      (mkStyleOptions "StyleOptions00001") 2 "purple" 11).2.2
      (by norm_num [lineWidthValid])⟩

/-- Claim C8: a freshly constructed `StyleOptions` instance has
`alpha = 0.8`, `color = red`, `line_width = 1`, and each default lies within
its field's declared domain. -/
theorem mkStyleOptions_defaults (nm : String) :
    (mkStyleOptions nm).alpha = 8/10 ∧
    (mkStyleOptions nm).color = "red" ∧
    (mkStyleOptions nm).line_width = 1 ∧
    alphaValid (mkStyleOptions nm).alpha ∧
    colorValid (mkStyleOptions nm).color ∧
    lineWidthValid (mkStyleOptions nm).line_width :=
  ⟨rfl, rfl, rfl, by norm_num [mkStyleOptions, alphaValid],
   by simp [mkStyleOptions, colorValid, colorObjects],
   by norm_num [mkStyleOptions, lineWidthValid]⟩

/-- Claim C9: invoking the notification hook does not modify the container:
the stream instance, and in particular its `alpha`, `color` and `line_width`
values, are identical before and after the call; only the displayed plot is
recomputed. -/
theorem event_preserves_stream (st : DMapSystem) :
    (fireEvent st).stream = st.stream ∧
    (fireEvent st).stream.alpha = st.stream.alpha ∧
    (fireEvent st).stream.color = st.stream.color ∧
    (fireEvent st).stream.line_width = st.stream.line_width ∧
    (fireEvent st).base = st.base :=
  ⟨rfl, rfl, rfl, rfl, rfl⟩

/-- Claim C6: the visualization binding is a single-argument function from
current attribute values to a restyled plot: it changes only the style
options, leaves the curve's data unchanged, and is re-invoked on the
stream's current contents whenever the notification hook fires. -/
theorem dmapCallback_restyles_only (base : Curve) (kwargs : StyleArgs)
    (st : DMapSystem) :
    (dmapCallback base kwargs).data = base.data ∧
    (dmapCallback base kwargs).style = some kwargs ∧
    (fireEvent st).displayed = dmapCallback st.base (contents st.stream) :=
  ⟨rfl, rfl, rfl⟩

/-- Claim C10: the visualization binding is deterministic — its output
depends only on the container's current attribute values and the fixed base
curve; two containers with equal contents (regardless of instance name)
yield equal styled plots. -/
theorem dmapCallback_deterministic (base : Curve) (o1 o2 : StyleOptions)
    (h : contents o1 = contents o2) :
    dmapCallback base (contents o1) = dmapCallback base (contents o2) := by
  rw [h]

/-- Witness for C10: two differently named instances with equal attribute
values produce the same styled plot. -/
theorem dmapCallback_deterministic_witness :
    dmapCallback ⟨[0], none⟩ (contents (mkStyleOptions "StyleOptions00001"))
      = dmapCallback ⟨[0], none⟩
          (contents (mkStyleOptions "StyleOptions00002")) :=
  dmapCallback_deterministic ⟨[0], none⟩ (mkStyleOptions "StyleOptions00001")
    (mkStyleOptions "StyleOptions00002") rfl

/-- Counterexample to C5 as stated: the notebook's third `Widgets` call
supplies the input `continuous_update`, which is not among the inputs the
spec's interface section lists. -/
theorem widgets_call_extra_input :
    ¬ (notebookWidgetsCalls.all
        (fun c => c.inputs.all (fun a => specListedInputs.contains a))
      = true) := by
  decide

/-- Claim C5 (amended): every `Widgets` call the notebook makes supplies
only a parameterized instance, an update callback, a layout-position string,
a list of pre-rendered plots, or a continuous-update flag; the first input
of every call is the instance. -/
theorem widgets_calls_inputs_amended :
    notebookWidgetsCalls.all
      (fun c => c.inputs.all
        (fun a => (specListedInputs ++ ["continuous_update"]).contains a)
          && (c.inputs.headD "" == "instance"))
      = true := by
  decide

end ParamsWidgets
